import Mathlib

/-!
Verification development for the realtime-code-backend server
(realtime-code-backend/server.js): a Socket.IO relay that keeps one
in-memory snapshot of code per document, fans out edits and cursor
positions to room peers, and runs the snapshot in a python3 subprocess
on request, replying with the captured output.

The server state is the in-memory document map (Map<documentId, content>)
together with the transport-level room membership (one member set per
document identifier).  Each socket event handler is embedded as a pure
function from the state (plus the message payload and, for run_code, an
environment describing the OS-level outcomes) to the new state and the
list of emitted messages.
-/

/-- A code_output reply: the payload of socket.emit with output text and
an error flag, as built at each emit site of the run_code handler. -/
structure CodeOutput where
  output : String
  error : Bool
deriving Repr, DecidableEq

/-- The payload of an emitted socket message, one constructor per event
kind the server emits. -/
inductive Payload where
  | codeOutput (reply : CodeOutput)
  | codeChangeMsg (newContent senderId fileName : String)
  | cursorUpdateMsg (userId position selection fileName : String)
deriving Repr, DecidableEq

/-- The addressing of an emitted message: socket.emit targets the one
requesting socket; socket.to(room).emit targets every member of the room
except the emitting socket (Socket.IO broadcast semantics). -/
inductive Target where
  | socket (sid : String)
  | roomExcept (room sender : String)
deriving Repr, DecidableEq

/-- One emitted socket message: its target, the event name and the payload. -/
structure Emit where
  target : Target
  event : String
  payload : Payload
deriving Repr, DecidableEq

/-- Server state: the documents map (Map<documentId (projectId), codeContent>,
absent keys read as none, matching Map.get returning undefined) and the
room membership table of the transport (member socket ids per document
identifier; a never-joined room reads as the empty list). -/
structure ServerState where
  documents : String → Option String
  rooms : String → List String

/-- Map.set of the documents map: overwrite the slot of one key, leave
every other key unchanged. -/
def mapSet (m : String → Option String) (k v : String) : String → Option String :=
  fun x => if x = k then some v else m x

/-- socket.join(documentId): add the socket to the room member set,
creating the room if absent; a second join of a present member changes
nothing (set semantics of Socket.IO rooms). -/
def joinRoom (rooms : String → List String) (documentId sid : String) :
    String → List String :=
  fun d =>
    if d = documentId then
      if (rooms documentId).contains sid then rooms documentId
      else rooms documentId ++ [sid]
    else rooms d

/-- socket.leave(documentId): remove the socket from the room member set;
nothing happens when it is not a member. -/
def leaveRoom (rooms : String → List String) (documentId sid : String) :
    String → List String :=
  fun d =>
    if d = documentId then (rooms documentId).filter (fun s => s != sid)
    else rooms d

/-- Handler of the join_document event (server.js lines 44-49): only
socket.join(documentId); the documents map is untouched. -/
def joinDocument (st : ServerState) (sid documentId : String) : ServerState :=
  ⟨st.documents, joinRoom st.rooms documentId sid⟩

/-- Handler of the leave_document event (server.js lines 52-55): only
socket.leave(documentId). -/
def leaveDocument (st : ServerState) (sid documentId : String) : ServerState :=
  ⟨st.documents, leaveRoom st.rooms documentId sid⟩

/-- Transport-level cleanup at disconnect: the socket is removed from
every room it belonged to; rooms themselves are not destroyed. -/
def onDisconnect (st : ServerState) (sid : String) : ServerState :=
  ⟨st.documents, fun d => (st.rooms d).filter (fun s => s != sid)⟩

/-- Handler of the code_change event (server.js lines 58-66):
documents.set(documentId, newContent), then
socket.to(documentId).emit of the payload without documentId, so the
broadcast reaches room members other than the sending socket. -/
def codeChange (st : ServerState) (sid documentId newContent senderId fileName : String) :
    ServerState × List Emit :=
  (⟨mapSet st.documents documentId newContent, st.rooms⟩,
   [⟨Target.roomExcept documentId sid, "code_change",
     Payload.codeChangeMsg newContent senderId fileName⟩])

/-- Handler of the cursor_update event (server.js lines 69-73): pure
fan-out of the payload without documentId via socket.to(documentId).emit;
the state is not touched. -/
def cursorUpdate (st : ServerState) (sid documentId fileName userId position selection : String) :
    ServerState × List Emit :=
  (st,
   [⟨Target.roomExcept documentId sid, "cursor_update",
     Payload.cursorUpdateMsg userId position selection fileName⟩])

/-- Which sockets a given emitted message reaches, per Socket.IO delivery
semantics: socket.emit reaches exactly the one socket; a room broadcast
reaches the current room members except the emitting socket. -/
def deliveredTo (st : ServerState) (e : Emit) (sid : String) : Bool :=
  match e.target with
  | Target.socket s => sid == s
  | Target.roomExcept room sender => (st.rooms room).contains sid && sid != sender

/-- Outcome of spawning python3 on the scratch file for one run, as delivered
by Node event callbacks: either the process ran and the close event fired
with an exit code, after stdout and stderr delivered their data chunks;
or the interpreter could not be started, in which case Node fires the
error event and then (as the child_process documentation guarantees when
the child failed to spawn) also the close event, with a null exit code
and empty output buffers. -/
inductive SpawnOutcome where
  | exited (stdoutChunks stderrChunks : List String) (code : Int)
  | spawnFailed (errMessage : String)
deriving Repr, DecidableEq

/-- OS-level environment of one run_code request: the Date.now timestamp
used in the scratch file name, whether fs.writeFileSync succeeds (with the
thrown message when not), the spawn outcome, and whether each fs.unlink
call succeeds (the first and, on the spawn-failure path, the second). -/
structure RunEnv where
  now : Nat
  writeOk : Bool
  writeErrMessage : String
  spawn : SpawnOutcome
  unlink1Ok : Bool
  unlink2Ok : Bool
deriving Repr, DecidableEq

/-- Observable result of one run_code request: the state afterwards, the
emitted messages in order, whether the scratch file was written, how many
fs.unlink calls were made, whether spawn was invoked, and the console log
lines (console.log and console.error calls, coarsely rendered). -/
structure RunResult where
  state : ServerState
  emits : List Emit
  scratchCreated : Bool
  unlinkCalls : Nat
  spawnAttempted : Bool
  logs : List String

/-- The scratch file name, temp_script_ followed by Date.now and the
socket id (the directory prefix of path.join(dirname, ...) is omitted). -/
def tempFileName (now : Nat) (sid : String) : String :=
  "temp_script_" ++ toString now ++ "_" ++ sid ++ ".py"

/-- Accumulation of stream data chunks: output starts empty and each data
event appends its chunk. -/
def concatChunks (chunks : List String) : String :=
  chunks.foldl (fun acc c => acc ++ c) ""

/-- The JavaScript a-or-b idiom on strings: the empty string is falsy, so
the right side is used exactly when the left side is empty. -/
def jsStringOr (a b : String) : String :=
  if a = "" then b else a

/-- Rendering of the exit code in a template literal: Node passes null to
the close handler when the process never exited with a code. -/
def renderExitCode : Option Int → String
  | none => "null"
  | some c => toString c

/-- The reply built by the close handler (server.js lines 110-127): the
test is code !== 0, so a null code also takes the error branch; the error
branch sends the accumulated stderr, or the synthesized non-zero-exit
message when stderr is empty (errorOutput || fallback). -/
def closeReply (output errorOutput : String) (code : Option Int) : CodeOutput :=
  if code ≠ some 0 then
    ⟨jsStringOr errorOutput ("Python process exited with non-zero code: " ++ renderExitCode code),
     true⟩
  else
    ⟨output, false⟩

/-- The reply of the missing-snapshot guard (server.js lines 81-84). -/
def noCodeSentinel : CodeOutput :=
  ⟨"No code found in server memory for this document. Please ensure the file is active and saved.",
   false⟩

/-- The reply of the spawn-error handler (server.js lines 129-140). -/
def spawnFailReply (errMessage : String) : CodeOutput :=
  ⟨"Error: Could not start Python interpreter. Is Python installed and in your PATH? (" ++
     errMessage ++ ")",
   true⟩

/-- The reply of the catch block around fs.writeFileSync (server.js
lines 142-148). -/
def writeFailReply (errMessage : String) : CodeOutput :=
  ⟨"Server Error: Could not prepare code for execution. (" ++ errMessage ++ ")",
   true⟩

/-- A code_output emission via socket.emit to the requesting socket. -/
def emitOutput (sid : String) (reply : CodeOutput) : Emit :=
  ⟨Target.socket sid, "code_output", Payload.codeOutput reply⟩

/-- The console.log at line 86 of server.js. -/
def requestLog (sid documentId : String) : String :=
  "User " ++ sid ++ " requested to run code in document " ++ documentId

/-- Handler of the run_code event (server.js lines 76-149).  The guard
is the truthiness test if (!codeToExecute), which fires both when the map
has no entry (undefined) and when the stored content is the empty string.
Otherwise the snapshot is written to the scratch file (the catch block
replies with an error and creates nothing when the write throws) and
python3 is spawned on it.  When the process runs and exits, the close
handler unlinks the scratch file and emits the closeReply.  When spawn
fails, the error handler emits its diagnostic and unlinks the scratch
file, and then the close event fires as well (Node fires close after
error when the child failed to spawn) with a null code and empty buffers,
unlinking a second time and emitting a second reply.  A failed unlink is
only logged. -/
def runCode (st : ServerState) (sid documentId : String) (env : RunEnv) : RunResult :=
  match st.documents documentId with
  | none =>
    ⟨st, [emitOutput sid noCodeSentinel], false, 0, false, []⟩
  | some codeToExecute =>
    if codeToExecute = "" then
      ⟨st, [emitOutput sid noCodeSentinel], false, 0, false, []⟩
    else if env.writeOk then
      match env.spawn with
      | SpawnOutcome.exited stdoutChunks stderrChunks code =>
        ⟨st,
         [emitOutput sid
            (closeReply (concatChunks stdoutChunks) (concatChunks stderrChunks) (some code))],
         true, 1, true,
         [requestLog sid documentId,
          "Code written to " ++ tempFileName env.now sid,
          "Python process exited with code " ++ renderExitCode (some code)] ++
         (if env.unlink1Ok then []
          else ["Error deleting temp file " ++ tempFileName env.now sid ++ ":"])⟩
      | SpawnOutcome.spawnFailed errMessage =>
        ⟨st,
         [emitOutput sid (spawnFailReply errMessage),
          emitOutput sid (closeReply "" "" none)],
         true, 2, true,
         [requestLog sid documentId,
          "Code written to " ++ tempFileName env.now sid,
          "Failed to start Python process:"] ++
         (if env.unlink1Ok then []
          else ["Error deleting temp file on spawn error " ++ tempFileName env.now sid ++ ":"]) ++
         ["Python process exited with code " ++ renderExitCode none] ++
         (if env.unlink2Ok then []
          else ["Error deleting temp file " ++ tempFileName env.now sid ++ ":"])⟩
    else
      ⟨st, [emitOutput sid (writeFailReply env.writeErrMessage)], false, 0, false,
       [requestLog sid documentId, "Error writing temporary file:"]⟩

/-- A concrete state for witnesses: one document p1 holding print(1),
no room members. -/
def stRun : ServerState :=
  ⟨fun d => if d = "p1" then some "print(1)" else none, fun _ => []⟩

/-- A concrete state for witnesses: document p1 holding the empty string. -/
def stEmptySnap : ServerState :=
  ⟨fun d => if d = "p1" then some "" else none, fun _ => []⟩

/-- A concrete empty state for witnesses. -/
def stEmpty : ServerState :=
  ⟨fun _ => none, fun _ => []⟩

/-- A concrete successful-run environment for witnesses. -/
def envExitZero : RunEnv :=
  ⟨7, true, "", SpawnOutcome.exited ["1\n"] [] 0, true, true⟩

/-- A concrete failing-run environment for witnesses: exit code 1, empty
stderr. -/
def envExitOne : RunEnv :=
  ⟨7, true, "", SpawnOutcome.exited [] [] 1, true, true⟩

/-- A concrete spawn-failure environment. -/
def envSpawnFail : RunEnv :=
  ⟨7, true, "", SpawnOutcome.spawnFailed "spawn python3 ENOENT", true, false⟩

/-- Helper: a socket is a member of a room right after joining it. -/
theorem joinRoom_mem (rooms : String → List String) (documentId sid : String) :
    sid ∈ joinRoom rooms documentId sid documentId := by
  unfold joinRoom
  rw [if_pos rfl]
  by_cases h : (rooms documentId).contains sid = true
  · rw [if_pos h]
    exact List.elem_iff.mp h
  · rw [if_neg h]
    exact List.mem_append_right _ (List.mem_singleton.mpr rfl)

/-- Helper: joining a room a second time changes nothing. -/
theorem joinRoom_idem (rooms : String → List String) (documentId sid : String) :
    joinRoom (joinRoom rooms documentId sid) documentId sid
      = joinRoom rooms documentId sid := by
  funext d
  by_cases hd : d = documentId
  · subst hd
    by_cases h : sid ∈ rooms d
    · simp [joinRoom, h]
    · simp [joinRoom, h]
  · simp [joinRoom, hd]

/-- Helper: the room table is unchanged by leaving a room one is not in. -/
theorem leaveRoom_not_mem (rooms : String → List String) (documentId sid : String)
    (h : sid ∉ rooms documentId) :
    leaveRoom rooms documentId sid = rooms := by
  funext d
  unfold leaveRoom
  by_cases hd : d = documentId
  · subst hd
    rw [if_pos rfl]
    apply List.filter_eq_self.mpr
    intro a ha
    simp only [bne_iff_ne, ne_eq]
    exact fun has => h (has ▸ ha)
  · rw [if_neg hd]

/-- Claim C5: after any code_change, the Snapshot stored for the document
identifier equals exactly newContent, regardless of the prior value or
absence; the resulting state does not depend on fileName (one snapshot
slot per document, not per document-file pair); and after two successive
code_change messages for the same document, the last one wins in its
entirety. -/
theorem code_change_last_write_wins (st : ServerState)
    (sid documentId newContent senderId fileName : String) :
    ((codeChange st sid documentId newContent senderId fileName).1.documents documentId
       = some newContent) ∧
    (∀ f₂, (codeChange st sid documentId newContent senderId fileName).1
       = (codeChange st sid documentId newContent senderId f₂).1) ∧
    (∀ sid₀ senderId₀ c₀ f₀,
      (codeChange (codeChange st sid₀ documentId c₀ senderId₀ f₀).1
          sid documentId newContent senderId fileName).1.documents documentId
        = some newContent) := by
  refine ⟨?_, ?_, ?_⟩
  · simp [codeChange, mapSet]
  · intro f₂
    rfl
  · intro sid₀ senderId₀ c₀ f₀
    simp [codeChange, mapSet]

/-- Claim C6: a code_change from a session is emitted as one broadcast
carrying the newContent, senderId and fileName payload to the room of the
document, and that broadcast reaches exactly the sessions that are in the
room and are not the sender; in particular it never reaches the sending
session itself. -/
theorem code_change_broadcast (st : ServerState)
    (sid documentId newContent senderId fileName : String) :
    ((codeChange st sid documentId newContent senderId fileName).2
       = [⟨Target.roomExcept documentId sid, "code_change",
           Payload.codeChangeMsg newContent senderId fileName⟩]) ∧
    (∀ s, deliveredTo (codeChange st sid documentId newContent senderId fileName).1
        ⟨Target.roomExcept documentId sid, "code_change",
         Payload.codeChangeMsg newContent senderId fileName⟩ s = true
        ↔ (s ∈ st.rooms documentId ∧ s ≠ sid)) ∧
    (deliveredTo (codeChange st sid documentId newContent senderId fileName).1
        ⟨Target.roomExcept documentId sid, "code_change",
         Payload.codeChangeMsg newContent senderId fileName⟩ sid = false) := by
  refine ⟨rfl, ?_, ?_⟩
  · intro s
    simp [deliveredTo, codeChange]
  · simp [deliveredTo, codeChange]

/-- Claim C7: a cursor_update is forwarded to the other members of the
room of the document as exactly the userId, position, selection and
fileName payload, excluding the sender, and it leaves the whole server
state (documents map and room memberships) unchanged. -/
theorem cursor_update_pure_fanout (st : ServerState)
    (sid documentId fileName userId position selection : String) :
    ((cursorUpdate st sid documentId fileName userId position selection).1 = st) ∧
    ((cursorUpdate st sid documentId fileName userId position selection).2
       = [⟨Target.roomExcept documentId sid, "cursor_update",
           Payload.cursorUpdateMsg userId position selection fileName⟩]) ∧
    (∀ s, deliveredTo st
        ⟨Target.roomExcept documentId sid, "cursor_update",
         Payload.cursorUpdateMsg userId position selection fileName⟩ s = true
        ↔ (s ∈ st.rooms documentId ∧ s ≠ sid)) ∧
    (deliveredTo st
        ⟨Target.roomExcept documentId sid, "cursor_update",
         Payload.cursorUpdateMsg userId position selection fileName⟩ sid = false) := by
  refine ⟨rfl, rfl, ?_, ?_⟩
  · intro s
    simp [deliveredTo]
  · simp [deliveredTo]

/-- Claim C10: handling a run_code request never modifies the documents
map or any room membership: on every path the state afterwards equals the
state before. -/
theorem run_code_state_frame (st : ServerState) (sid documentId : String) (env : RunEnv) :
    (runCode st sid documentId env).state = st := by
  unfold runCode
  cases st.documents documentId with
  | none => rfl
  | some c =>
    dsimp only
    split
    · rfl
    · split
      · cases env.spawn <;> rfl
      · rfl

/-- Claim C2: when no Snapshot exists for the document, run_code replies
immediately with the benign no-code sentinel carrying error false, writes
no scratch file, spawns no interpreter process and changes nothing. -/
theorem run_code_missing_snapshot (st : ServerState) (sid documentId : String) (env : RunEnv)
    (h : st.documents documentId = none) :
    runCode st sid documentId env
      = ⟨st, [emitOutput sid noCodeSentinel], false, 0, false, []⟩ ∧
    noCodeSentinel.error = false := by
  constructor
  · unfold runCode
    rw [h]
  · rfl

/-- Witness for run_code_missing_snapshot at a concrete empty state. -/
theorem run_code_missing_snapshot_witness :
    stEmpty.documents "p2" = none ∧
    (runCode stEmpty "s1" "p2" envExitZero
       = ⟨stEmpty, [emitOutput "s1" noCodeSentinel], false, 0, false, []⟩ ∧
     noCodeSentinel.error = false) :=
  ⟨rfl, run_code_missing_snapshot stEmpty "s1" "p2" envExitZero rfl⟩

/-- Claim C9: when the stored Snapshot is the empty string, run_code
takes the same guard (the falsiness test on the stored content), replies
with the same benign sentinel, spawns nothing, and emits exactly what it
would emit for a document with no Snapshot at all. -/
theorem run_code_empty_snapshot (st : ServerState) (sid documentId : String) (env : RunEnv)
    (h : st.documents documentId = some "") :
    runCode st sid documentId env
      = ⟨st, [emitOutput sid noCodeSentinel], false, 0, false, []⟩ ∧
    (∀ st₂ : ServerState, st₂.documents documentId = none →
      (runCode st sid documentId env).emits = (runCode st₂ sid documentId env).emits) := by
  have h1 : runCode st sid documentId env
      = ⟨st, [emitOutput sid noCodeSentinel], false, 0, false, []⟩ := by
    unfold runCode
    rw [h]
    simp
  refine ⟨h1, ?_⟩
  intro st₂ h2
  rw [h1]
  unfold runCode
  rw [h2]

/-- Witness for run_code_empty_snapshot: a state whose p1 snapshot is the
empty string, compared with the concrete empty state. -/
theorem run_code_empty_snapshot_witness :
    stEmptySnap.documents "p1" = some "" ∧ stEmpty.documents "p1" = none ∧
    (runCode stEmptySnap "s1" "p1" envExitZero
       = ⟨stEmptySnap, [emitOutput "s1" noCodeSentinel], false, 0, false, []⟩) ∧
    (runCode stEmptySnap "s1" "p1" envExitZero).emits
      = (runCode stEmpty "s1" "p1" envExitZero).emits :=
  ⟨rfl, rfl,
   (run_code_empty_snapshot stEmptySnap "s1" "p1" envExitZero rfl).1,
   (run_code_empty_snapshot stEmptySnap "s1" "p1" envExitZero rfl).2 stEmpty rfl⟩

/-- Claim C1: when the spawned interpreter process terminates with an
exit code, the single reply is: for exit code 0, the accumulated stdout
with error false; for a non-zero exit code, the accumulated stderr with
error true, or the synthesized non-zero-exit message when the accumulated
stderr is empty. -/
theorem run_code_exit_code_reply (st : ServerState) (sid documentId : String) (env : RunEnv)
    (content : String) (stdoutChunks stderrChunks : List String) (code : Int)
    (hdoc : st.documents documentId = some content) (hne : content ≠ "")
    (hw : env.writeOk = true)
    (hs : env.spawn = SpawnOutcome.exited stdoutChunks stderrChunks code) :
    (code = 0 →
      (runCode st sid documentId env).emits
        = [emitOutput sid ⟨concatChunks stdoutChunks, false⟩]) ∧
    (code ≠ 0 → concatChunks stderrChunks ≠ "" →
      (runCode st sid documentId env).emits
        = [emitOutput sid ⟨concatChunks stderrChunks, true⟩]) ∧
    (code ≠ 0 → concatChunks stderrChunks = "" →
      (runCode st sid documentId env).emits
        = [emitOutput sid
            ⟨"Python process exited with non-zero code: " ++ toString code, true⟩]) := by
  have hrun : (runCode st sid documentId env).emits
      = [emitOutput sid
          (closeReply (concatChunks stdoutChunks) (concatChunks stderrChunks) (some code))] := by
    unfold runCode
    rw [hdoc]
    simp [hne, hw, hs]
  refine ⟨?_, ?_, ?_⟩
  · intro h0
    rw [hrun]
    simp [closeReply, h0]
  · intro h0 hne2
    rw [hrun]
    simp [closeReply, h0, jsStringOr, hne2]
  · intro h0 heq
    rw [hrun]
    simp [closeReply, h0, jsStringOr, heq, renderExitCode]

/-- Witness for run_code_exit_code_reply: a concrete successful run with
exit code 0 and stdout chunk, and a concrete failing run with exit code 1
and empty stderr yielding the synthesized message. -/
theorem run_code_exit_code_reply_witness :
    (stRun.documents "p1" = some "print(1)" ∧ "print(1)" ≠ "" ∧
     envExitZero.writeOk = true ∧
     envExitZero.spawn = SpawnOutcome.exited ["1\n"] [] 0 ∧
     (runCode stRun "s1" "p1" envExitZero).emits
       = [emitOutput "s1" ⟨concatChunks ["1\n"], false⟩]) ∧
    (envExitOne.spawn = SpawnOutcome.exited [] [] 1 ∧ (1 : Int) ≠ 0 ∧
     concatChunks ([] : List String) = "" ∧
     (runCode stRun "s1" "p1" envExitOne).emits
       = [emitOutput "s1"
           ⟨"Python process exited with non-zero code: " ++ toString (1 : Int), true⟩]) :=
  ⟨⟨by decide, by decide, rfl, rfl,
    (run_code_exit_code_reply stRun "s1" "p1" envExitZero "print(1)" ["1\n"] [] 0
       (by decide) (by decide) rfl rfl).1 rfl⟩,
   ⟨rfl, by decide, rfl,
    (run_code_exit_code_reply stRun "s1" "p1" envExitOne "print(1)" [] [] 1
       (by decide) (by decide) rfl rfl).2.2 (by decide) rfl⟩⟩

/-- Claim C3: whenever a run created the scratch file, at least one
fs.unlink call on it is made (the close handler and, on the spawn-failure
path, also the error handler unlink it), and the outcome of the unlink
calls never changes the emitted replies or the resulting state: it is
only logged. -/
theorem run_code_scratch_cleanup (st : ServerState) (sid documentId : String) (env : RunEnv) :
    ((runCode st sid documentId env).scratchCreated = true →
       1 ≤ (runCode st sid documentId env).unlinkCalls) ∧
    (∀ b₁ b₂ : Bool,
       (runCode st sid documentId
           ⟨env.now, env.writeOk, env.writeErrMessage, env.spawn, b₁, b₂⟩).emits
         = (runCode st sid documentId env).emits ∧
       (runCode st sid documentId
           ⟨env.now, env.writeOk, env.writeErrMessage, env.spawn, b₁, b₂⟩).state
         = (runCode st sid documentId env).state) := by
  constructor
  · unfold runCode
    cases st.documents documentId with
    | none => simp
    | some c =>
      dsimp only
      split
      · simp
      · split
        · cases env.spawn <;> simp
        · simp
  · intro b₁ b₂
    unfold runCode
    cases st.documents documentId with
    | none => exact ⟨rfl, rfl⟩
    | some c =>
      dsimp only
      split
      · exact ⟨rfl, rfl⟩
      · split
        · cases env.spawn <;> exact ⟨rfl, rfl⟩
        · exact ⟨rfl, rfl⟩

/-- Witness for run_code_scratch_cleanup at the concrete spawn-failure
environment: the scratch file was created, an unlink was made, and
flipping both unlink outcomes leaves the emitted replies unchanged. -/
theorem run_code_scratch_cleanup_witness :
    ((runCode stRun "s1" "p1" envSpawnFail).scratchCreated = true ∧
     1 ≤ (runCode stRun "s1" "p1" envSpawnFail).unlinkCalls) ∧
    (runCode stRun "s1" "p1"
        ⟨7, true, "", SpawnOutcome.spawnFailed "spawn python3 ENOENT", false, true⟩).emits
      = (runCode stRun "s1" "p1" envSpawnFail).emits :=
  ⟨⟨by decide, (run_code_scratch_cleanup stRun "s1" "p1" envSpawnFail).1 (by decide)⟩,
   ((run_code_scratch_cleanup stRun "s1" "p1" envSpawnFail).2 false true).1⟩

/-- Claim C8: join is idempotent and accepts any string, putting the
session into the room (creating it if absent); leave removes the session
from the room and is a no-op when the session is not a member; the
disconnect cleanup removes the session from every room.  All three are
total functions of the state, so no input raises an error. -/
theorem join_leave_room_laws (st : ServerState) (sid documentId : String) :
    (joinDocument (joinDocument st sid documentId) sid documentId
       = joinDocument st sid documentId) ∧
    (sid ∈ (joinDocument st sid documentId).rooms documentId) ∧
    (sid ∉ (leaveDocument st sid documentId).rooms documentId) ∧
    (sid ∉ st.rooms documentId → leaveDocument st sid documentId = st) ∧
    (∀ d, sid ∉ (onDisconnect st sid).rooms d) := by
  refine ⟨?_, ?_, ?_, ?_, ?_⟩
  · show ServerState.mk st.documents (joinRoom (joinRoom st.rooms documentId sid) documentId sid)
      = ServerState.mk st.documents (joinRoom st.rooms documentId sid)
    rw [joinRoom_idem]
  · exact joinRoom_mem st.rooms documentId sid
  · show sid ∉ leaveRoom st.rooms documentId sid documentId
    unfold leaveRoom
    rw [if_pos rfl]
    simp [List.mem_filter]
  · intro h
    show ServerState.mk st.documents (leaveRoom st.rooms documentId sid) = st
    rw [leaveRoom_not_mem st.rooms documentId sid h]
  · intro d
    show sid ∉ (st.rooms d).filter (fun s => s != sid)
    simp [List.mem_filter]

/-- Witness for join_leave_room_laws at a concrete state: leaving a room
one is not in changes nothing, and joining twice equals joining once. -/
theorem join_leave_room_laws_witness :
    ("s1" ∉ stEmpty.rooms "p1" ∧ leaveDocument stEmpty "s1" "p1" = stEmpty) ∧
    joinDocument (joinDocument stEmpty "s1" "p1") "s1" "p1"
      = joinDocument stEmpty "s1" "p1" :=
  ⟨⟨by simp [stEmpty], (join_leave_room_laws stEmpty "s1" "p1").2.2.2.1 (by simp [stEmpty])⟩,
   (join_leave_room_laws stEmpty "s1" "p1").1⟩

/-- Claim C4, evaluation at the failing input: when the snapshot exists,
the scratch write succeeds and spawning the interpreter fails, the
handler emits two code_output replies to the requester, not one: the
spawn-error diagnostic from the error handler and, because Node fires the
close event after the error event when the child failed to spawn, the
synthesized null-exit-code message from the close handler.  Both replies
do go exclusively to the requesting socket. -/
theorem run_code_spawn_failure_two_replies :
    (runCode stRun "s1" "p1" envSpawnFail).emits
      = [emitOutput "s1" (spawnFailReply "spawn python3 ENOENT"),
         emitOutput "s1" ⟨"Python process exited with non-zero code: null", true⟩] ∧
    (runCode stRun "s1" "p1" envSpawnFail).emits.length = 2 ∧
    (runCode stRun "s1" "p1" envSpawnFail).emits.map Emit.target
      = [Target.socket "s1", Target.socket "s1"] := by
  refine ⟨by decide, by decide, by decide⟩
